import Mathlib

/-!
Shallow embedding of the TLS capture-correlation layer of
`src/src/main.rs` (the `Captured` record, the `CapturingSessionStore`
session-store callbacks, and `TlsAwareClient::execute`), together with
theorems settling the specification claims about it.

Modelling conventions:

* An `Arc<Mutex<Captured>>` is modelled as an index into a heap of
  `Captured` records held in the shared state; the shared
  `active`/`active_capture` slot (`Arc<Mutex<Option<Arc<Mutex<Captured>>>>>`)
  is an `Option Nat` naming the currently active record, if any.
* rustls values are modelled by the one piece of data the source reads from
  them: their `Debug` rendering (a `String`).
* The awaited transport call inside `execute` is modelled by a
  `TransportOutcome`: the list of session-store callbacks (and, for the
  concurrency analysis, registry mutations performed by other tasks) that
  are delivered while the call is suspended, followed by the call's result.
  Per the cooperative single-threaded scheduling model, the code before and
  after the `.await` runs atomically: no events interleave there.
-/

namespace PqcTracer

/-- Debug rendering of a rustls `NamedGroup` value; the source only ever
formats the group with the `Debug` formatter, so the rendering is the whole
observable content. -/
structure NamedGroup where
  dbg : String
  deriving DecidableEq, Repr

/-- A rustls `Tls13ClientSessionValue`; the source reads exactly
`value.suite().common.suite` and formats it with the `Debug` formatter, so
that rendering is the whole observable content. -/
structure Tls13ClientSessionValue where
  suiteDbg : String
  deriving DecidableEq, Repr

/-- A rustls `Tls12ClientSessionValue`; the source never inspects it, so it
is opaque. -/
structure Tls12ClientSessionValue where
  token : Nat
  deriving DecidableEq, Repr

/-- A `reqwest::Error` from the underlying transport, opaque to this layer. -/
structure TransportError where
  code : Nat
  deriving DecidableEq, Repr

/-- A `reqwest::Response` from the underlying transport, opaque to this
layer. -/
structure TransportResponse where
  status : Nat
  deriving DecidableEq, Repr

/-- Per-request TLS metadata populated by the session store callbacks
(`struct Captured`, main.rs lines 16-20). -/
structure Captured where
  group : Option String
  cipher : Option String
  deriving DecidableEq, Repr

/-- `Captured::default()`: both fields empty. -/
def Captured.default : Captured := ⟨none, none⟩

/-- Shared state of the capture layer: the single `active` slot shared
between `CapturingSessionStore` and `TlsAwareClient` (they alias the same
`Arc`), plus the heap of `Captured` records allocated so far.  A record
handle is its index into `heap`. -/
structure StoreState where
  active : Option Nat
  heap : List Captured
  deriving DecidableEq, Repr

/-- Dereference a record handle (reading through the record's own mutex). -/
def readRec (s : StoreState) (i : Nat) : Captured :=
  s.heap.getD i Captured.default

/-- Overwrite the record behind a handle (writing through the record's own
mutex); the registry slot itself is untouched. -/
def writeRec (s : StoreState) (i : Nat) (c : Captured) : StoreState :=
  { s with heap := s.heap.set i c }

/-- `CapturingSessionStore::set_kx_hint` (main.rs lines 39-44): clone the
current slot; if a record is active, set its `group` field to the `Debug`
rendering of the observed key-exchange group. -/
def set_kx_hint (s : StoreState) (_serverName : String) (group : NamedGroup) :
    StoreState :=
  match s.active with
  | none => s
  | some i => writeRec s i { readRec s i with group := some group.dbg }

/-- `CapturingSessionStore::kx_hint` (main.rs lines 46-48): always `None`. -/
def kx_hint (_s : StoreState) (_serverName : String) : Option NamedGroup :=
  none

/-- `CapturingSessionStore::set_tls12_session` (main.rs line 51): a no-op. -/
def set_tls12_session (s : StoreState) (_serverName : String)
    (_value : Tls12ClientSessionValue) : StoreState :=
  s

/-- `CapturingSessionStore::tls12_session` (main.rs lines 53-55): always
`None`. -/
def tls12_session (_s : StoreState) (_serverName : String) :
    Option Tls12ClientSessionValue :=
  none

/-- `CapturingSessionStore::remove_tls12_session` (main.rs line 57): a
no-op. -/
def remove_tls12_session (s : StoreState) (_serverName : String) :
    StoreState :=
  s

/-- `CapturingSessionStore::insert_tls13_ticket` (main.rs lines 60-68):
clone the current slot; if a record is active and its `cipher` field is
still empty, set it to the `Debug` rendering of the ticket's cipher suite;
otherwise leave everything unchanged. -/
def insert_tls13_ticket (s : StoreState) (_serverName : String)
    (value : Tls13ClientSessionValue) : StoreState :=
  match s.active with
  | none => s
  | some i =>
      let c := readRec s i
      if c.cipher = none then
        writeRec s i { c with cipher := some value.suiteDbg }
      else
        s

/-- `CapturingSessionStore::take_tls13_ticket` (main.rs lines 70-72): always
`None`. -/
def take_tls13_ticket (_s : StoreState) (_serverName : String) :
    Option Tls13ClientSessionValue :=
  none

/-- One event that can hit the shared state while a transport call is
suspended: a session-store callback fired by the TLS stack, or (when other
requests run concurrently on the same client) another task activating or
deactivating the shared slot. -/
inductive Event where
  | setKxHint (serverName : String) (group : NamedGroup)
  | insertTls13Ticket (serverName : String) (value : Tls13ClientSessionValue)
  | setTls12Session (serverName : String) (value : Tls12ClientSessionValue)
  | removeTls12Session (serverName : String)
  | activate (i : Nat)
  | deactivate
  deriving DecidableEq, Repr

/-- Interpretation of one event on the shared state. -/
def applyEvent (s : StoreState) : Event → StoreState
  | .setKxHint n g => set_kx_hint s n g
  | .insertTls13Ticket n v => insert_tls13_ticket s n v
  | .setTls12Session n v => set_tls12_session s n v
  | .removeTls12Session n => remove_tls12_session s n
  | .activate i => { s with active := some i }
  | .deactivate => { s with active := none }

/-- Interpretation of a sequence of events, in order. -/
def applyEvents (s : StoreState) (evs : List Event) : StoreState :=
  evs.foldl applyEvent s

/-- `TlsResponse` (main.rs lines 9-13). -/
structure TlsResponse where
  response : TransportResponse
  group : Option String
  cipher : Option String
  deriving DecidableEq, Repr

/-- What the awaited transport call does: the events delivered into the
shared state while `execute` is suspended at the `.await`, and the result
the call resolves to. -/
structure TransportOutcome where
  events : List Event
  result : Except TransportError TransportResponse

/-- Steps 1-2 of `TlsAwareClient::execute` (main.rs lines 118-125): allocate
a fresh `Captured::default()` record and install it in the shared slot.
Returns the new state and the fresh record's handle. -/
def executeStart (s : StoreState) : StoreState × Nat :=
  let i := s.heap.length
  ({ active := some i, heap := s.heap ++ [Captured.default] }, i)

/-- Steps 3b-5 of `TlsAwareClient::execute` (main.rs lines 128-142), from
the moment the awaited call resolves: on `Err`, the `?` operator returns the
error at once - the deactivation block is never reached; on `Ok`, clear the
slot, then snapshot the captured record into a `TlsResponse`. -/
def executeFinish (s : StoreState) (i : Nat)
    (result : Except TransportError TransportResponse) :
    StoreState × Except TransportError TlsResponse :=
  match result with
  | .error e => (s, .error e)
  | .ok resp =>
      let s2 : StoreState := { s with active := none }
      let c := readRec s2 i
      (s2, .ok { response := resp, group := c.group, cipher := c.cipher })

/-- `TlsAwareClient::execute` (main.rs lines 117-143) for one request,
parameterised by what the awaited transport call does. -/
def execute (s : StoreState) (outcome : TransportOutcome) :
    StoreState × Except TransportError TlsResponse :=
  let start := executeStart s
  let s3 := applyEvents start.1 outcome.events
  executeFinish s3 start.2 outcome.result

/-- `execute` is exactly its three phases composed; `executeStart` and
`executeFinish` are the code on either side of the `.await`. -/
theorem execute_eq_phases (s : StoreState) (o : TransportOutcome) :
    execute s o =
      executeFinish (applyEvents (executeStart s).1 o.events)
        (executeStart s).2 o.result :=
  rfl

/-- True of the events a session-store callback can cause; false of the
registry mutations only another concurrently running request performs. -/
def isCallback : Event → Bool
  | .activate _ => false
  | .deactivate => false
  | _ => true

/-- Modelled from the spec, section 4.1: the metadata a single handshake's
own callback sequence produces on a fresh record - the group of the last
key-exchange event and the cipher suite of the first ticket event. -/
def capStep (c : Captured) : Event → Captured
  | .setKxHint _ g => { c with group := some g.dbg }
  | .insertTls13Ticket _ v =>
      if c.cipher = none then { c with cipher := some v.suiteDbg } else c
  | _ => c

/-- The record a callback sequence produces starting from an empty record. -/
def capturedOfEvents (evs : List Event) : Captured :=
  evs.foldl capStep Captured.default

/-! Basic facts about the heap of records. -/

theorem readRec_writeRec (s : StoreState) (i j : Nat) (c : Captured) :
    readRec (writeRec s i c) j =
      if i = j ∧ i < s.heap.length then c else readRec s j := by
  unfold readRec writeRec
  by_cases hij : i = j
  · subst hij
    by_cases hlt : i < s.heap.length
    · simp [List.getD_eq_getElem?_getD, List.getElem?_set_eq_of_lt c hlt, hlt]
    · have hset : s.heap.set i c = s.heap := List.set_eq_of_length_le (by omega)
      simp [hset, hlt]
  · simp [List.getD_eq_getElem?_getD, List.getElem?_set_ne hij, hij]

theorem writeRec_active (s : StoreState) (i : Nat) (c : Captured) :
    (writeRec s i c).active = s.active :=
  rfl

theorem writeRec_length (s : StoreState) (i : Nat) (c : Captured) :
    (writeRec s i c).heap.length = s.heap.length := by
  simp [writeRec]

theorem readRec_executeStart (s : StoreState) :
    readRec (executeStart s).1 (executeStart s).2 = Captured.default := by
  simp [readRec, executeStart, List.getD_eq_getElem?_getD,
    List.getElem?_concat_length]

/-! How callback events act on the record the shared slot designates. -/

theorem applyEvent_callback (s : StoreState) (i : Nat) (e : Event)
    (hcb : isCallback e = true) (hact : s.active = some i)
    (hlen : i < s.heap.length) :
    (applyEvent s e).active = some i ∧
    (applyEvent s e).heap.length = s.heap.length ∧
    readRec (applyEvent s e) i = capStep (readRec s i) e := by
  cases e with
  | setKxHint n g =>
      simp only [applyEvent, set_kx_hint, hact, capStep]
      exact ⟨hact ▸ writeRec_active .., writeRec_length ..,
        by rw [readRec_writeRec]; simp [hlen]⟩
  | insertTls13Ticket n v =>
      cases hc : (readRec s i).cipher with
      | none =>
          refine ⟨?_, ?_, ?_⟩
          · simp [applyEvent, insert_tls13_ticket, hact, hc, writeRec]
          · simp [applyEvent, insert_tls13_ticket, hact, hc, writeRec]
          · simp [applyEvent, insert_tls13_ticket, hact, capStep, hc,
              readRec_writeRec, hlen]
      | some x =>
          refine ⟨?_, ?_, ?_⟩ <;>
            simp [applyEvent, insert_tls13_ticket, hact, capStep, hc]
  | setTls12Session n v => exact ⟨hact, rfl, rfl⟩
  | removeTls12Session n => exact ⟨hact, rfl, rfl⟩
  | activate j => simp [isCallback] at hcb
  | deactivate => simp [isCallback] at hcb

theorem applyEvents_callbacks (evs : List Event) :
    ∀ s i, evs.all isCallback = true → s.active = some i →
      i < s.heap.length →
      (applyEvents s evs).active = some i ∧
      (applyEvents s evs).heap.length = s.heap.length ∧
      readRec (applyEvents s evs) i = List.foldl capStep (readRec s i) evs := by
  induction evs with
  | nil => intro s i _ hact _; exact ⟨hact, rfl, rfl⟩
  | cons e rest ih =>
      intro s i hall hact hlen
      rw [List.all_cons, Bool.and_eq_true] at hall
      obtain ⟨h1, h2, h3⟩ := applyEvent_callback s i e hall.1 hact hlen
      have hrec := ih (applyEvent s e) i hall.2 h1 (by rw [h2]; exact hlen)
      simp only [applyEvents, List.foldl_cons] at hrec ⊢
      exact ⟨hrec.1, by rw [hrec.2.1, h2], by rw [hrec.2.2, h3]⟩

/-- No callback event clears or overwrites an already populated cipher
field. -/
theorem capStep_cipher_some (c : Captured) (e : Event) (x : String)
    (h : c.cipher = some x) : (capStep c e).cipher = some x := by
  cases e <;> simp [capStep, h]

theorem foldl_capStep_cipher_some (evs : List Event) :
    ∀ c x, c.cipher = some x →
      (List.foldl capStep c evs).cipher = some x := by
  induction evs with
  | nil => intro c x h; exact h
  | cons e rest ih => intro c x h; exact ih _ x (capStep_cipher_some c e x h)

/-- Projecting a record does not depend on the registry slot. -/
theorem readRec_set_active (s : StoreState) (a : Option Nat) (i : Nat) :
    readRec { s with active := a } i = readRec s i :=
  rfl

/-! Claims. -/

/-- C1: the claim states that on both the success and the failure path of
the awaited transport call, `execute` clears the registry's current slot
back to `none` before returning.  The code violates this on the failure
path: the `?` on the awaited call (main.rs line 128) returns the error
before the deactivation block (main.rs lines 131-134) runs.  Evaluated at
the failing input - a fresh client whose transport call fails with no
handshake events - `execute` returns the transport error while the slot
still holds the failed request's record instead of `none`. -/
theorem execute_error_leaves_active_slot :
    (execute ⟨none, []⟩ ⟨[], .error ⟨7⟩⟩).2 = Except.error ⟨7⟩ ∧
    (execute ⟨none, []⟩ ⟨[], .error ⟨7⟩⟩).1.active = some 0 :=
  ⟨rfl, rfl⟩

/-- C4: for every transport failure, `execute` returns exactly the
underlying client's error - never remapped, never swallowed, and never a
success value carrying fabricated TLS metadata - whatever callbacks were
delivered during the await. -/
theorem execute_propagates_transport_error (s : StoreState)
    (evs : List Event) (e : TransportError) :
    (execute s ⟨evs, .error e⟩).2 = Except.error e :=
  rfl

/-- C8: the TLS 1.2 session-resumption callbacks are no-ops reporting no
stored session: for every state and input, `set_tls12_session` and
`remove_tls12_session` change no state, and `tls12_session` returns
`none`. -/
theorem tls12_callbacks_are_noops (s : StoreState) (n : String)
    (v : Tls12ClientSessionValue) :
    set_tls12_session s n v = s ∧ remove_tls12_session s n = s ∧
    tls12_session s n = none :=
  ⟨rfl, rfl, rfl⟩

/-- C10: the session store never supplies stored session material back to
the TLS stack: in every state - in particular in any state reached after
tickets were passed to `insert_tls13_ticket` - and for every server name,
`kx_hint` and `take_tls13_ticket` return `none`, so inserted tickets are
consumed for metadata capture only and are never retrievable. -/
theorem store_supplies_no_session (s : StoreState) (n : String) :
    kx_hint s n = none ∧ take_tls13_ticket s n = none :=
  ⟨rfl, rfl⟩

/-- C2: counterexample.  The claim states that for two or more requests
issued concurrently on one client to different hosts, each response's
group and cipher correspond only to that request's own handshake.  The
single-slot registry violates this: request A activates record 0, request
B activates record 1 while A is suspended, then A's own handshake callback
(group "X25519MLKEM768" for hostA) fires and lands in B's record.  A's
response comes back empty and B's response reports A's handshake group -
while B's own handshake delivered the different group "secp256r1", which
is dropped because the slot has already been cleared by A's completion. -/
theorem concurrent_execute_cross_contamination :
    (let s0 : StoreState := ⟨none, []⟩
     let startA := executeStart s0
     let startB := executeStart startA.1
     let s3 := applyEvent startB.1 (.setKxHint "hostA" ⟨"X25519MLKEM768"⟩)
     let finA := executeFinish s3 startA.2 (.ok ⟨200⟩)
     let s5 := applyEvent finA.1 (.setKxHint "hostB" ⟨"secp256r1"⟩)
     let finB := executeFinish s5 startB.2 (.ok ⟨201⟩)
     finA.2 = Except.ok ⟨⟨200⟩, none, none⟩ ∧
     finB.2 = Except.ok ⟨⟨201⟩, some "X25519MLKEM768", none⟩) ∧
    "X25519MLKEM768" ≠ "secp256r1" :=
  ⟨⟨rfl, rfl⟩, by decide⟩

/-- C2 (amended): when no other request's activation or deactivation
interleaves with a request's await window - that is, when requests on one
client are sequential, so only session-store callbacks hit the shared
state during the await - a successful `execute` returns exactly the
metadata its own window's callbacks produced on the fresh record, never
another request's. -/
theorem execute_sequential_no_cross_contamination (s : StoreState)
    (evs : List Event) (resp : TransportResponse)
    (hcb : evs.all isCallback = true) :
    (execute s ⟨evs, .ok resp⟩).2 =
      Except.ok ⟨resp, (capturedOfEvents evs).group,
        (capturedOfEvents evs).cipher⟩ := by
  have hlen : (executeStart s).2 < (executeStart s).1.heap.length := by
    simp [executeStart]
  obtain ⟨-, -, h3⟩ :=
    applyEvents_callbacks evs (executeStart s).1 (executeStart s).2 hcb rfl hlen
  calc (execute s ⟨evs, .ok resp⟩).2
      = Except.ok ⟨resp,
          (readRec (applyEvents (executeStart s).1 evs) (executeStart s).2).group,
          (readRec (applyEvents (executeStart s).1 evs) (executeStart s).2).cipher⟩ :=
        rfl
    _ = _ := by rw [h3, readRec_executeStart]; rfl

/-- Closed instance of the amended C2 theorem: a lone request whose window
delivers one key-exchange callback gets exactly that group back. -/
theorem execute_sequential_no_cross_contamination_witness :
    (execute ⟨none, []⟩
        ⟨[Event.setKxHint "hostA" ⟨"X25519MLKEM768"⟩], .ok ⟨200⟩⟩).2 =
      Except.ok ⟨⟨200⟩, some "X25519MLKEM768", none⟩ :=
  execute_sequential_no_cross_contamination ⟨none, []⟩
    [Event.setKxHint "hostA" ⟨"X25519MLKEM768"⟩] ⟨200⟩ (by decide)

/-- C3: the cipher capture is first-event-wins: for any sequence of TLS 1.3
ticket callbacks delivered while the same record is active with its cipher
field still empty, the recorded cipher suite equals the first ticket's
suite and is never overwritten by a later ticket. -/
theorem insert_tls13_ticket_first_wins (s : StoreState) (i : Nat)
    (first : String × Tls13ClientSessionValue)
    (rest : List (String × Tls13ClientSessionValue))
    (hact : s.active = some i) (hlen : i < s.heap.length)
    (hempty : (readRec s i).cipher = none) :
    (readRec (applyEvents s ((first :: rest).map
        fun p => Event.insertTls13Ticket p.1 p.2)) i).cipher
      = some first.2.suiteDbg := by
  have hall : ((first :: rest).map
      fun p => Event.insertTls13Ticket p.1 p.2).all isCallback = true := by
    rw [List.all_eq_true]
    intro e he
    rw [List.mem_map] at he
    obtain ⟨p, -, rfl⟩ := he
    rfl
  obtain ⟨-, -, h3⟩ := applyEvents_callbacks _ s i hall hact hlen
  rw [h3]
  simp only [List.map_cons, List.foldl_cons]
  exact foldl_capStep_cipher_some _ _ _ (by simp [capStep, hempty])

/-- Closed instance of the C3 theorem: two tickets with different suites
delivered to an active empty record leave the first suite recorded. -/
theorem insert_tls13_ticket_first_wins_witness :
    (readRec (applyEvents ⟨some 0, [⟨none, none⟩]⟩
        (([("h1", ⟨"TLS13_AES_128_GCM_SHA256"⟩),
           ("h2", ⟨"TLS13_CHACHA20_POLY1305_SHA256"⟩)] :
            List (String × Tls13ClientSessionValue)).map
          fun p => Event.insertTls13Ticket p.1 p.2)) 0).cipher
      = some "TLS13_AES_128_GCM_SHA256" :=
  insert_tls13_ticket_first_wins ⟨some 0, [⟨none, none⟩]⟩ 0
    ("h1", ⟨"TLS13_AES_128_GCM_SHA256"⟩)
    [("h2", ⟨"TLS13_CHACHA20_POLY1305_SHA256"⟩)] rfl (by decide) rfl

/-- C5: every call to `execute` allocates a fresh `Captured` record with
both fields empty before activating it, and on success the returned
`TlsResponse` carries the transport's response together with exactly the
fields of that record as the sink callbacks left them when the transport
call resolved. -/
theorem execute_fresh_record_snapshot (s : StoreState) (evs : List Event)
    (resp : TransportResponse) :
    readRec (executeStart s).1 (executeStart s).2 = Captured.default ∧
    (execute s ⟨evs, .ok resp⟩).2 =
      Except.ok ⟨resp,
        (readRec (applyEvents (executeStart s).1 evs) (executeStart s).2).group,
        (readRec (applyEvents (executeStart s).1 evs) (executeStart s).2).cipher⟩ :=
  ⟨readRec_executeStart s, rfl⟩

/-- C6: when no handshake callback fires during a successful `execute`
(for example because the transport reused a pooled connection), the call
still succeeds and the returned `TlsResponse` has `group = none` and
`cipher = none` - empty capture fields are a result state, not an error. -/
theorem execute_no_callbacks_empty_capture (s : StoreState)
    (resp : TransportResponse) :
    (execute s ⟨[], .ok resp⟩).2 = Except.ok ⟨resp, none, none⟩ := by
  calc (execute s ⟨[], .ok resp⟩).2
      = Except.ok ⟨resp, (readRec (executeStart s).1 (executeStart s).2).group,
          (readRec (executeStart s).1 (executeStart s).2).cipher⟩ := rfl
    _ = _ := by rw [readRec_executeStart]; rfl

/-- C7: when the key-exchange callback fires, the sink reads the registry's
current entry: if no entry is present the whole state is left unchanged,
and if an entry is present its group field is set to the observed
key-exchange group. -/
theorem set_kx_hint_updates_current_entry (s : StoreState) (n : String)
    (g : NamedGroup) :
    (s.active = none → set_kx_hint s n g = s) ∧
    ∀ i, s.active = some i → i < s.heap.length →
      (readRec (set_kx_hint s n g) i).group = some g.dbg := by
  constructor
  · intro h; simp [set_kx_hint, h]
  · intro i h hlen
    simp [set_kx_hint, h, readRec_writeRec, hlen]

/-- Closed instance of the C7 theorem: with no active entry the state is
untouched, and with an active entry its group field receives the observed
group. -/
theorem set_kx_hint_updates_current_entry_witness :
    set_kx_hint ⟨none, [⟨none, none⟩]⟩ "h" ⟨"X25519"⟩ = ⟨none, [⟨none, none⟩]⟩ ∧
    (readRec (set_kx_hint ⟨some 0, [⟨none, none⟩]⟩ "h" ⟨"X25519"⟩) 0).group
      = some "X25519" :=
  ⟨(set_kx_hint_updates_current_entry ⟨none, [⟨none, none⟩]⟩ "h" ⟨"X25519"⟩).1 rfl,
   (set_kx_hint_updates_current_entry ⟨some 0, [⟨none, none⟩]⟩ "h" ⟨"X25519"⟩).2 0
     rfl (by decide)⟩

/-- C9: each data-carrying sink callback writes only its own field:
`set_kx_hint` never changes any record's cipher field, `insert_tls13_ticket`
never changes any record's group field, and neither callback changes the
registry's current slot. -/
theorem sink_callbacks_frame_condition (s : StoreState) (n m : String)
    (g : NamedGroup) (v : Tls13ClientSessionValue) (j : Nat) :
    (set_kx_hint s n g).active = s.active ∧
    (insert_tls13_ticket s m v).active = s.active ∧
    (readRec (set_kx_hint s n g) j).cipher = (readRec s j).cipher ∧
    (readRec (insert_tls13_ticket s m v) j).group = (readRec s j).group := by
  refine ⟨?_, ?_, ?_, ?_⟩
  · cases h : s.active with
    | none => simp [set_kx_hint, h]
    | some i => simp [set_kx_hint, h, writeRec]
  · cases h : s.active with
    | none => simp [insert_tls13_ticket, h]
    | some i =>
        cases hc : (readRec s i).cipher with
        | none => simp [insert_tls13_ticket, h, hc, writeRec]
        | some x => simp [insert_tls13_ticket, h, hc]
  · cases h : s.active with
    | none => simp [set_kx_hint, h]
    | some i =>
        simp only [set_kx_hint, h, readRec_writeRec]
        split
        · rename_i hcond
          obtain ⟨rfl, -⟩ := hcond
          rfl
        · rfl
  · cases h : s.active with
    | none => simp [insert_tls13_ticket, h]
    | some i =>
        cases hc : (readRec s i).cipher with
        | none =>
            simp only [insert_tls13_ticket, h, hc, if_pos, readRec_writeRec]
            split
            · rename_i hcond
              obtain ⟨rfl, -⟩ := hcond
              rfl
            · rfl
        | some x => simp [insert_tls13_ticket, h, hc]

end PqcTracer
